import Mathlib

/-!
Shallow embedding of the rustybot HTTP gateway (src/main.rs).

The repository exposes two dispatch handlers:
 - completion (route POST /completion), the chain-backend route built on
   llm_chain: it substitutes the question into a prompt template, runs the
   chain, resolves the output asynchronously and extracts the primary
   textual output;
 - groqlive (route POST /groqlive), the direct-backend route: it reads the
   GROQ_API_KEY environment variable, posts a chat-completion request and
   navigates choices[0].message.content in the JSON reply.

The network, the llm_chain library and the environment are modelled as
explicit parameters (functions from the request the handler builds to the
observed upstream outcome), so each handler becomes a pure function whose
branches mirror the Rust source line by line. Actix internal-server errors
carry HTTP status 500.
-/

namespace Rustybot

/-- A JSON document, mirroring serde_json Value as used by the source:
objects are field lists looked up by key, arrays are element lists. -/
inductive Json where
  | null
  | bool (b : Bool)
  | num (n : Int)
  | str (s : String)
  | arr (elems : List Json)
  | obj (fields : List (String × Json))

/-- Field lookup in a JSON object field list: first binding of the key,
as serde_json Map lookup behaves on the parsed documents we model. -/
def lookupField : List (String × Json) → String → Option Json
  | [], _ => none
  | (k, v) :: rest, key => if k = key then some v else lookupField rest key

/-- Value::get with a string key: a field of an object, none otherwise. -/
def Json.getField : Json → String → Option Json
  | .obj fields, key => lookupField fields key
  | _, _ => none

/-- Value::as_array. -/
def Json.asArray : Json → Option (List Json)
  | .arr elems => some elems
  | _ => none

/-- Value::as_str. -/
def Json.asStr : Json → Option String
  | .str s => some s
  | _ => none

/-- The defensive navigation groqlive performs on the decoded upstream
JSON (main.rs lines 109-115): get "choices", as_array, element 0,
get "message", get "content", as_str; any failing step yields none. -/
def extractAnswer (j : Json) : Option String :=
  (((((j.getField "choices").bind Json.asArray).bind (fun a => a[0]?)).bind
      (fun choice => choice.getField "message")).bind
    (fun msg => msg.getField "content")).bind Json.asStr

/-- reqwest StatusCode::is_success: the 2xx range. -/
def statusIsSuccess (s : Nat) : Bool :=
  decide (200 ≤ s) && decide (s < 300)

/-- What a handler returns to actix: either an HttpResponse built by the
handler (a status code and a JSON body), or an actix error produced via
ErrorInternalServerError, which actix serves with HTTP status 500. -/
inductive HandlerResult where
  | ok (status : Nat) (body : Json)
  | internalError (msg : String)

/-- The HTTP status the caller observes for a handler result. -/
def statusOf : HandlerResult → Nat
  | .ok s _ => s
  | .internalError _ => 500

/-- The answer field of a response body, when the body is an object
carrying a string under "answer". -/
def answerField : HandlerResult → Option String
  | .ok _ body => (body.getField "answer").bind Json.asStr
  | .internalError _ => none

/-- Outcome of the direct-backend network call as groqlive observes it:
either send() failed, or a response arrived with a status code, a body
text (response.text() may itself fail, hence Option) and a body decoded
as JSON (response.json() may fail with a message, hence Except). -/
inductive DirectUpstream where
  | sendErr (msg : String)
  | response (status : Nat) (textBody : Option String) (jsonBody : Except String Json)

/-- The request body groqlive builds (main.rs lines 74-80): fixed model,
one user message whose content is the question, forwarded verbatim. -/
def requestBody (question : String) : Json :=
  Json.obj
    [("model", Json.str "groq/compound-mini"),
     ("messages", Json.arr
       [Json.obj [("role", Json.str "user"), ("content", Json.str question)]])]

/-- How groqlive maps the observed upstream outcome to its reply
(main.rs lines 82-119): a send error becomes an internal error; a
non-success status is passed through with the body text (or the fallback
"Unknown error") wrapped as one string under "error"; a success status
has its body decoded as JSON (decode failure is an internal error) and
navigated, the placeholder standing in when navigation fails. -/
def handleDirectResponse : DirectUpstream → HandlerResult
  | .sendErr e => .internalError ("Request failed: " ++ e)
  | .response status textBody jsonBody =>
    if !statusIsSuccess status then
      .ok status (Json.obj [("error", Json.str (textBody.getD "Unknown error"))])
    else
      match jsonBody with
      | .error e => .internalError ("Failed to parse response: " ++ e)
      | .ok j =>
        .ok 200 (Json.obj
          [("answer", Json.str ((extractAnswer j).getD "No answer received"))])

/-- The groqlive handler (main.rs lines 68-120). apiKey is the result of
reading GROQ_API_KEY at call time; a missing key is an internal error
before any upstream interaction. upstream maps the request body the
handler posts to the observed network outcome. -/
def groqlive (apiKey : Option String)
    (upstream : Json → DirectUpstream) (question : String) : HandlerResult :=
  match apiKey with
  | none => .internalError "GROQ_API_KEY not set"
  | some _ => handleDirectResponse (upstream (requestBody question))

/-- Outcome of the chain-backend call as completion observes it:
chain.run may fail; on success, output.to_immediate() may fail; on
success of that, primary_textual_output() is an optional string. -/
inductive ChainUpstream where
  | runErr (msg : String)
  | resolveErr (msg : String)
  | resolved (primaryTextualOutput : Option String)

/-- The parameter map completion builds (main.rs lines 39-40): the single
template substitution binding, the question forwarded verbatim. -/
def chainParameters (question : String) : List (String × String) :=
  [("question", question)]

/-- How completion maps the observed chain outcome to its reply
(main.rs lines 42-56): both failure stages become internal errors via
ErrorInternalServerError; a resolved output yields a 200 answer envelope,
the placeholder standing in when there is no primary textual output. -/
def handleChainResult : ChainUpstream → HandlerResult
  | .runErr e => .internalError e
  | .resolveErr e => .internalError e
  | .resolved primary =>
    .ok 200 (Json.obj
      [("answer", Json.str (primary.getD "No answer received"))])

/-- The completion handler (main.rs lines 35-57). upstream maps the
parameter map the handler passes to chain.run to the observed outcome. -/
def completion (upstream : List (String × String) → ChainUpstream)
    (question : String) : HandlerResult :=
  handleChainResult (upstream (chainParameters question))

/-- The environment variables main reads at startup. -/
structure Env where
  openrouterApiKey : Option String
  groqApiKey : Option String
  model : Option String

/-- The chain-backend configuration main builds when startup succeeds. -/
structure StartupConfig where
  apiKey : String
  apiBase : String
  model : String

/-- Startup configuration loading in main (main.rs lines 130-135): the
question-mark on env::var for OPENROUTER_API_KEY makes a missing
chain-backend key a fatal startup error; MODEL falls back to a default;
GROQ_API_KEY is not read at startup at all. -/
def mainStartup (env : Env) : Except String StartupConfig :=
  match env.openrouterApiKey with
  | none => .error "environment variable not found"
  | some key =>
    .ok (StartupConfig.mk key "https://openrouter.ai/api/v1"
      (env.model.getD "meta-llama/llama-3.2-3b-instruct"))

/-- Claim C1: for every direct-backend call whose upstream response has a
non-success status code, groqlive replies with that same status code and a
JSON body wrapping the captured body text verbatim as one string under
the key "error", bypassing the answer envelope. -/
theorem direct_nonsuccess_passthrough
    (k q b : String) (upstream : Json → DirectUpstream)
    (s : Nat) (jb : Except String Json)
    (hu : upstream (requestBody q) = DirectUpstream.response s (some b) jb)
    (hs : statusIsSuccess s = false) :
    groqlive (some k) upstream q =
      HandlerResult.ok s (Json.obj [("error", Json.str b)]) := by
  simp [groqlive, handleDirectResponse, hu, hs]

/-- Witness for C1: upstream HTTP 429 with the literal body text
of a rate-limit notice is passed through as status 429 with that text
wrapped as a single string, exactly as the spec example states. -/
theorem direct_nonsuccess_passthrough_witness :
    groqlive (some "k")
        (fun _ => DirectUpstream.response 429
          (some "\x7b\"error\":\"rate limited\"\x7d") (Except.error "eof")) "hi" =
      HandlerResult.ok 429
        (Json.obj [("error", Json.str "\x7b\"error\":\"rate limited\"\x7d")]) :=
  direct_nonsuccess_passthrough "k" "hi" "\x7b\"error\":\"rate limited\"\x7d"
    (fun _ => DirectUpstream.response 429
      (some "\x7b\"error\":\"rate limited\"\x7d") (Except.error "eof"))
    429 (Except.error "eof") rfl rfl

/-- Claim C2: when the direct-route upstream returns a success status with
a body that decodes as JSON but where the navigation of
choices[0].message.content fails at some step, groqlive returns the 200
answer envelope with the placeholder text, never an error. -/
theorem direct_malformed_placeholder
    (k q : String) (upstream : Json → DirectUpstream)
    (s : Nat) (t : Option String) (j : Json)
    (hu : upstream (requestBody q) = DirectUpstream.response s t (Except.ok j))
    (hs : statusIsSuccess s = true)
    (hx : extractAnswer j = none) :
    groqlive (some k) upstream q =
      HandlerResult.ok 200 (Json.obj [("answer", Json.str "No answer received")]) := by
  simp [groqlive, handleDirectResponse, hu, hs, hx]

/-- Witness for C2: a 200 upstream reply whose JSON body is an object with
no "choices" key degrades to the placeholder answer. -/
theorem direct_malformed_placeholder_witness :
    groqlive (some "k")
        (fun _ => DirectUpstream.response 200 none (Except.ok (Json.obj []))) "hi" =
      HandlerResult.ok 200 (Json.obj [("answer", Json.str "No answer received")]) :=
  direct_malformed_placeholder "k" "hi"
    (fun _ => DirectUpstream.response 200 none (Except.ok (Json.obj [])))
    200 none (Json.obj []) rfl rfl rfl

/-- Claim C4: for every non-empty question, when the direct-route upstream
returns a success status whose JSON body navigates at
choices[0].message.content to the string X, groqlive returns a 200
success whose body is the answer envelope carrying X. -/
theorem direct_success_answer
    (k q X : String) (upstream : Json → DirectUpstream)
    (s : Nat) (t : Option String) (j : Json)
    (_hq : q ≠ "")
    (hu : upstream (requestBody q) = DirectUpstream.response s t (Except.ok j))
    (hs : statusIsSuccess s = true)
    (hx : extractAnswer j = some X) :
    groqlive (some k) upstream q =
      HandlerResult.ok 200 (Json.obj [("answer", Json.str X)]) := by
  simp [groqlive, handleDirectResponse, hu, hs, hx]

/-- Witness for C4: a well-formed upstream document with content "X"
yields the answer envelope carrying "X". -/
theorem direct_success_answer_witness :
    groqlive (some "k")
        (fun _ => DirectUpstream.response 200 none (Except.ok (Json.obj
          [("choices", Json.arr
            [Json.obj [("message", Json.obj [("content", Json.str "X")])]])])))
        "hi" =
      HandlerResult.ok 200 (Json.obj [("answer", Json.str "X")]) :=
  direct_success_answer "k" "hi" "X"
    (fun _ => DirectUpstream.response 200 none (Except.ok (Json.obj
      [("choices", Json.arr
        [Json.obj [("message", Json.obj [("content", Json.str "X")])]])])))
    200 none
    (Json.obj [("choices", Json.arr
      [Json.obj [("message", Json.obj [("content", Json.str "X")])]])])
    (by decide) rfl rfl rfl

/-- Claim C9: when the direct-route upstream returns a success status but
the body fails to decode as JSON, groqlive fails with an internal error
(served as HTTP 500), not the placeholder degradation. -/
theorem direct_undecodable_body_is_error
    (k q e : String) (upstream : Json → DirectUpstream)
    (s : Nat) (t : Option String)
    (hu : upstream (requestBody q) = DirectUpstream.response s t (Except.error e))
    (hs : statusIsSuccess s = true) :
    groqlive (some k) upstream q =
        HandlerResult.internalError ("Failed to parse response: " ++ e) ∧
      statusOf (groqlive (some k) upstream q) = 500 := by
  constructor <;> simp [groqlive, handleDirectResponse, hu, hs, statusOf]

/-- Witness for C9: a 200 upstream reply whose body is not JSON makes
groqlive return the decode internal error, with status 500. -/
theorem direct_undecodable_body_is_error_witness :
    groqlive (some "k")
        (fun _ => DirectUpstream.response 200 (some "not json") (Except.error "syntax")) "hi" =
        HandlerResult.internalError ("Failed to parse response: " ++ "syntax") ∧
      statusOf (groqlive (some "k")
        (fun _ => DirectUpstream.response 200 (some "not json") (Except.error "syntax")) "hi") = 500 :=
  direct_undecodable_body_is_error "k" "hi" "syntax"
    (fun _ => DirectUpstream.response 200 (some "not json") (Except.error "syntax"))
    200 (some "not json") rfl rfl

/-- Counterexample to claim C3 as stated: with an upstream that answers
200 and a well-formed document whose content is the empty string, groqlive
produces a success response (status 200) whose answer field is present
but is the empty string, so the answer is not always non-empty. -/
theorem answer_nonempty_counterexample :
    statusOf (groqlive (some "k")
        (fun _ => DirectUpstream.response 200 none (Except.ok (Json.obj
          [("choices", Json.arr
            [Json.obj [("message", Json.obj [("content", Json.str "")])]])])))
        "q") = 200 ∧
      answerField (groqlive (some "k")
        (fun _ => DirectUpstream.response 200 none (Except.ok (Json.obj
          [("choices", Json.arr
            [Json.obj [("message", Json.obj [("content", Json.str "")])]])])))
        "q") = some "" := by
  constructor <;> rfl

/-- Claim C3 as amended: in every success response of either handler the
answer field is present and is a string, and whenever extraction yields
nothing the placeholder is substituted; the answer may however equal the
empty string when the upstream supplies an empty textual answer. -/
theorem answer_always_present
    (k q : String) (uD : Json → DirectUpstream)
    (uC : List (String × String) → ChainUpstream) :
    (∀ s body, groqlive (some k) uD q = HandlerResult.ok s body →
        statusIsSuccess s = true → ∃ a, body = Json.obj [("answer", Json.str a)]) ∧
    (∀ s body, completion uC q = HandlerResult.ok s body →
        statusIsSuccess s = true → ∃ a, body = Json.obj [("answer", Json.str a)]) ∧
    (∀ s t j, uD (requestBody q) = DirectUpstream.response s t (Except.ok j) →
        statusIsSuccess s = true → extractAnswer j = none →
        groqlive (some k) uD q =
          HandlerResult.ok 200 (Json.obj [("answer", Json.str "No answer received")])) ∧
    (uC (chainParameters q) = ChainUpstream.resolved none →
        completion uC q =
          HandlerResult.ok 200 (Json.obj [("answer", Json.str "No answer received")])) := by
  refine ⟨?_, ?_, ?_, ?_⟩
  · intro s body hok hs
    unfold groqlive handleDirectResponse at hok
    cases hu : uD (requestBody q) with
    | sendErr e => rw [hu] at hok; exact absurd hok (by simp)
    | response st t jb =>
      rw [hu] at hok
      by_cases hst : statusIsSuccess st
      · simp [hst] at hok
        cases jb with
        | error e => exact absurd hok (by simp)
        | ok j =>
          simp at hok
          exact ⟨_, hok.2.symm⟩
      · simp [hst] at hok
        rw [hok.1] at hst
        exact absurd hs hst
  · intro s body hok hs
    unfold completion handleChainResult at hok
    cases hu : uC (chainParameters q) with
    | runErr e => rw [hu] at hok; exact absurd hok (by simp)
    | resolveErr e => rw [hu] at hok; exact absurd hok (by simp)
    | resolved p =>
      rw [hu] at hok
      simp at hok
      exact ⟨_, hok.2.symm⟩
  · intro s t j hu hs hx
    simp [groqlive, handleDirectResponse, hu, hs, hx]
  · intro hu
    simp [completion, handleChainResult, hu]

/-- Witness for the amended C3: a concrete success response on each route
carries an answer field, and a concrete extraction failure on each route
yields the placeholder. -/
theorem answer_always_present_witness :
    (∃ a, Json.obj [("answer", Json.str "Z")] = Json.obj [("answer", Json.str a)]) ∧
    groqlive (some "k")
        (fun _ => DirectUpstream.response 200 none (Except.ok Json.null)) "q" =
      HandlerResult.ok 200 (Json.obj [("answer", Json.str "No answer received")]) ∧
    completion (fun _ => ChainUpstream.resolved none) "q" =
      HandlerResult.ok 200 (Json.obj [("answer", Json.str "No answer received")]) := by
  refine ⟨?_, ?_, ?_⟩
  · exact (answer_always_present "k" "q"
      (fun _ => DirectUpstream.response 200 none (Except.ok (Json.obj
        [("choices", Json.arr
          [Json.obj [("message", Json.obj [("content", Json.str "Z")])]])])))
      (fun _ => ChainUpstream.resolved (some "Z"))).1
      200 (Json.obj [("answer", Json.str "Z")]) rfl rfl
  · exact (answer_always_present "k" "q"
      (fun _ => DirectUpstream.response 200 none (Except.ok Json.null))
      (fun _ => ChainUpstream.resolved none)).2.2.1 200 none Json.null rfl rfl rfl
  · exact (answer_always_present "k" "q"
      (fun _ => DirectUpstream.response 200 none (Except.ok Json.null))
      (fun _ => ChainUpstream.resolved none)).2.2.2 rfl

/-- Claim C5: on the chain route, a failing async resolution fails the
whole request with an internal error (HTTP 500); a resolution with
primary text Y yields the answer envelope carrying Y; a resolution with
no primary output yields the 200 placeholder answer. -/
theorem chain_result_mapping
    (uC : List (String × String) → ChainUpstream) (q : String) :
    (∀ e, uC (chainParameters q) = ChainUpstream.resolveErr e →
        completion uC q = HandlerResult.internalError e ∧
          statusOf (completion uC q) = 500) ∧
    (∀ Y, uC (chainParameters q) = ChainUpstream.resolved (some Y) →
        completion uC q = HandlerResult.ok 200 (Json.obj [("answer", Json.str Y)])) ∧
    (uC (chainParameters q) = ChainUpstream.resolved none →
        completion uC q =
          HandlerResult.ok 200 (Json.obj [("answer", Json.str "No answer received")])) := by
  refine ⟨?_, ?_, ?_⟩
  · intro e hu
    constructor <;> simp [completion, handleChainResult, hu, statusOf]
  · intro Y hu
    simp [completion, handleChainResult, hu]
  · intro hu
    simp [completion, handleChainResult, hu]

/-- Witness for C5: concrete chain outcomes exercise all three branches. -/
theorem chain_result_mapping_witness :
    completion (fun _ => ChainUpstream.resolveErr "boom") "q" =
        HandlerResult.internalError "boom" ∧
    completion (fun _ => ChainUpstream.resolved (some "Y")) "q" =
        HandlerResult.ok 200 (Json.obj [("answer", Json.str "Y")]) ∧
    completion (fun _ => ChainUpstream.resolved none) "q" =
        HandlerResult.ok 200 (Json.obj [("answer", Json.str "No answer received")]) := by
  refine ⟨?_, ?_, ?_⟩
  · exact ((chain_result_mapping (fun _ => ChainUpstream.resolveErr "boom") "q").1
      "boom" rfl).1
  · exact (chain_result_mapping (fun _ => ChainUpstream.resolved (some "Y")) "q").2.1
      "Y" rfl
  · exact (chain_result_mapping (fun _ => ChainUpstream.resolved none) "q").2.2 rfl

/-- Claim C6: every upstream error on the chain route, whether the chain
run fails (covering network failures, non-success statuses and malformed
replies, all surfaced by the library as one opaque run error) or the
async resolution fails, is answered with HTTP 500 as an internal error;
the reply is never the pass-through shape that would relay an upstream
status code and body. -/
theorem chain_errors_opaque
    (uC : List (String × String) → ChainUpstream) (q e : String)
    (hu : uC (chainParameters q) = ChainUpstream.runErr e ∨
          uC (chainParameters q) = ChainUpstream.resolveErr e) :
    statusOf (completion uC q) = 500 ∧
      ∃ m, completion uC q = HandlerResult.internalError m := by
  cases hu with
  | inl h => exact ⟨by simp [completion, handleChainResult, h, statusOf],
      e, by simp [completion, handleChainResult, h]⟩
  | inr h => exact ⟨by simp [completion, handleChainResult, h, statusOf],
      e, by simp [completion, handleChainResult, h]⟩

/-- Witness for C6: a concrete chain-run failure is served as a 500
internal error. -/
theorem chain_errors_opaque_witness :
    statusOf (completion (fun _ => ChainUpstream.runErr "status 429") "q") = 500 ∧
      ∃ m, completion (fun _ => ChainUpstream.runErr "status 429") "q" =
        HandlerResult.internalError m :=
  chain_errors_opaque (fun _ => ChainUpstream.runErr "status 429") "q"
    "status 429" (Or.inl rfl)

/-- Claim C7: credential handling is asymmetric. A missing chain-backend
key (OPENROUTER_API_KEY) makes startup fail, while a present one makes
startup succeed whatever the direct-backend key is; startup does not
depend on the direct-backend key at all; and a missing direct-backend key
(GROQ_API_KEY) makes every groqlive call fail with HTTP 500 for every
question and independently of the upstream, so before any upstream call. -/
theorem credential_asymmetry (env : Env) :
    (env.openrouterApiKey = none → ∃ m, mainStartup env = Except.error m) ∧
    (∀ k, env.openrouterApiKey = some k → ∃ cfg, mainStartup env = Except.ok cfg) ∧
    (∀ g, mainStartup (Env.mk env.openrouterApiKey g env.model) = mainStartup env) ∧
    (∀ upstream q, groqlive none upstream q =
        HandlerResult.internalError "GROQ_API_KEY not set" ∧
      statusOf (groqlive none upstream q) = 500) := by
  refine ⟨?_, ?_, ?_, ?_⟩
  · intro h
    exact ⟨"environment variable not found", by simp [mainStartup, h]⟩
  · intro k h
    exact ⟨StartupConfig.mk k "https://openrouter.ai/api/v1"
        (env.model.getD "meta-llama/llama-3.2-3b-instruct"),
      by simp [mainStartup, h]⟩
  · intro g
    rfl
  · intro upstream q
    exact ⟨rfl, rfl⟩

/-- Witness for C7: with only the chain key absent startup fails, with
only the direct key absent startup succeeds, and with the direct key
absent groqlive answers 500 on a concrete question and upstream. -/
theorem credential_asymmetry_witness :
    (∃ m, mainStartup (Env.mk none (some "g") none) = Except.error m) ∧
    (∃ cfg, mainStartup (Env.mk (some "k") none none) = Except.ok cfg) ∧
    groqlive none (fun _ => DirectUpstream.sendErr "never reached") "hello" =
        HandlerResult.internalError "GROQ_API_KEY not set" ∧
      statusOf (groqlive none
        (fun _ => DirectUpstream.sendErr "never reached") "hello") = 500 := by
  refine ⟨?_, ?_, ?_⟩
  · exact (credential_asymmetry (Env.mk none (some "g") none)).1 rfl
  · exact (credential_asymmetry (Env.mk (some "k") none none)).2.1 "k" rfl
  · exact (credential_asymmetry (Env.mk (some "k") none none)).2.2.2
      (fun _ => DirectUpstream.sendErr "never reached") "hello"

/-- Claim C8: both handlers are deterministic in the upstream. They are
pure functions of the configuration, the upstream behaviour and the
question, so two calls with identical questions against the same
deterministic upstream produce identical results; no hidden per-call
state exists in the embedding, mirroring the absence of mutable per-call
state in the source. -/
theorem dispatch_deterministic
    (uC : List (String × String) → ChainUpstream)
    (uD : Json → DirectUpstream) (k : Option String)
    (q1 q2 : String) (h : q1 = q2) :
    completion uC q1 = completion uC q2 ∧
      groqlive k uD q1 = groqlive k uD q2 := by
  subst h
  exact ⟨rfl, rfl⟩

/-- Witness for C8: repeating the same concrete question against a
concrete deterministic upstream yields the same result on both routes. -/
theorem dispatch_deterministic_witness :
    completion (fun _ => ChainUpstream.resolved (some "A")) "hello" =
        completion (fun _ => ChainUpstream.resolved (some "A")) "hello" ∧
      groqlive (some "k") (fun _ => DirectUpstream.sendErr "down") "hello" =
        groqlive (some "k") (fun _ => DirectUpstream.sendErr "down") "hello" :=
  dispatch_deterministic (fun _ => ChainUpstream.resolved (some "A"))
    (fun _ => DirectUpstream.sendErr "down") (some "k") "hello" "hello" rfl

/-- Claim C10: neither handler validates the question. For every string
question, the empty string included, groqlive with a present key always
proceeds to process the upstream response of the request body it built,
and that body carries the question verbatim as the sole user-message
content; completion always processes the chain outcome for its parameter
map, which binds the template slot "question" to the question verbatim. -/
theorem question_forwarded_unvalidated
    (k q : String) (uD : Json → DirectUpstream)
    (uC : List (String × String) → ChainUpstream) :
    groqlive (some k) uD q = handleDirectResponse (uD (requestBody q)) ∧
    ((((requestBody q).getField "messages").bind Json.asArray).bind
        (fun a => a[0]?)).bind (fun m => m.getField "content") =
      some (Json.str q) ∧
    (requestBody q).getField "messages" =
      some (Json.arr [Json.obj [("role", Json.str "user"),
        ("content", Json.str q)]]) ∧
    completion uC q = handleChainResult (uC (chainParameters q)) ∧
    chainParameters q = [("question", q)] := by
  exact ⟨rfl, rfl, rfl, rfl, rfl⟩

end Rustybot
